import Mathlib

/-!
Verification development for the weather-aggregator repository.

Shallow embedding conventions:
* Python floats that carry weather measurements, thresholds and importance
  scores are modelled as rationals.
* Python `str.lower` and `str.strip` are modelled by the character-level
  functions `pyLower` and `pyStrip`.
* The Python builtin parsers `float(...)` and `int(...)` applied to stored
  strings are modelled as explicit function parameters (`pyFloat`, `pyInt`)
  returning `Option` values, `none` standing for the exception branch that
  the source catches; concrete digit-string instances are provided for
  closed evaluations.
* The SQL store behind SQLAlchemy is modelled as a list of rows in
  insertion order; `filter_by(...).first()` becomes `List.find?`,
  `ORDER BY ... DESC` becomes a stable sort (`List.insertionSort`, which
  agrees with every other stable sort for a total transitive order), row
  insertion appends, and row deletion removes the first matching row.
-/

/-- Models Python `str.lower` (the repository only lower-cases ASCII
keyword material). -/
def pyLower (s : String) : String :=
  ⟨s.data.map Char.toLower⟩

/-- Models Python `str.strip`: removes whitespace from both ends. -/
def pyStrip (s : String) : String :=
  ⟨((s.data.dropWhile Char.isWhitespace).reverse.dropWhile Char.isWhitespace).reverse⟩

/-- Tests whether the second character list is an initial segment of the
first, mirroring the way Python substring containment compares characters. -/
def startsWithL : List Char → List Char → Bool
  | _, [] => true
  | [], _ :: _ => false
  | a :: as, b :: bs => a == b && startsWithL as bs

/-- Scans every suffix of the first list for an initial segment equal to the
second list. -/
def containsSubL : List Char → List Char → Bool
  | [], needle => startsWithL [] needle
  | h :: t, needle => startsWithL (h :: t) needle || containsSubL t needle

/-- Models the Python expression `needle in haystack` on strings. -/
def containsSub (haystack needle : String) : Bool :=
  containsSubL haystack.toList needle.toList

/-- Models Python truthiness of an optional string: `None` and the empty
string are falsy. -/
def pyTruthy : Option String → Bool
  | none => false
  | some s => s ≠ ""

/-- Models the Python expression `a or b` on optional strings. -/
def pyOrS (a b : Option String) : Option String :=
  if pyTruthy a then a else b

/-- Applies `f` to the first element satisfying `p`, leaving the rest of the
list unchanged; models an SQLAlchemy in-place update of the row returned by
`filter_by(...).first()`. -/
def updateFirst (p : α → Bool) (f : α → α) : List α → List α
  | [] => []
  | a :: as => if p a then f a :: as else a :: updateFirst p f as

/-- Removes the first element satisfying `p`; models `db.session.delete` of
the row returned by `filter_by(...).first()`. -/
def removeFirst (p : α → Bool) : List α → List α
  | [] => []
  | a :: as => if p a then as else a :: removeFirst p as

/-- Numeric value of a decimal digit string. -/
def decDigitsVal (l : List Char) : Nat :=
  l.foldl (fun n c => n * 10 + (c.toNat - 48)) 0

/-- Concrete instance of the Python parser `float(s)` restricted to plain
digit strings, used for closed evaluations. -/
def pyFloatDec (s : String) : Option ℚ :=
  if s ≠ "" ∧ s.toList.all Char.isDigit then some (decDigitsVal s.toList : ℚ)
  else none

/-- Concrete instance of the Python parser `int(s)` restricted to plain
digit strings, used for closed evaluations. -/
def pyIntDec (s : String) : Option ℤ :=
  if s ≠ "" ∧ s.toList.all Char.isDigit then some (decDigitsVal s.toList : ℤ)
  else none

/-! Precipitation classifier, from `map_precipitation_category` in
`src/services/alert_functions.py`. -/

/-- Keyword bucket mapped to the category `"no rain"`. -/
def no_rain_keywords : List String :=
  ["clear sky", "mainly clear", "partly cloudy", "overcast", "fog", "depositing rime fog"]

/-- Keyword bucket mapped to the category `"light"`. -/
def light_keywords : List String :=
  ["light drizzle", "light freezing drizzle", "slight rain",
   "slight rain showers", "slight snow fall", "slight snow showers", "snow grains"]

/-- Keyword bucket mapped to the category `"moderate"`. -/
def moderate_keywords : List String :=
  ["moderate drizzle", "moderate rain", "moderate rain showers",
   "moderate snow fall", "moderate snow showers", "slight or moderate thunderstorm",
   "thunderstorm with slight hail"]

/-- Keyword bucket mapped to the category `"heavy"`. -/
def heavy_keywords : List String :=
  ["dense drizzle", "dense freezing drizzle", "heavy rain",
   "heavy freezing rain", "heavy snow fall", "heavy rain showers",
   "heavy snow showers", "thunderstorm with heavy hail"]

/-- Embedding of `map_precipitation_category`: lower-cases the description
and checks the four keyword buckets in the order no rain, light, moderate,
heavy, returning the category of the first bucket containing a substring
match, and `"unknown"` when no keyword matches. The source iterates over
each bucket keyword by keyword and returns the category of the bucket at
the first hit, which is the same function as the bucket-level disjunction
used here. -/
def map_precipitation_category (description : String) : String :=
  let desc := pyLower description
  if no_rain_keywords.any (fun word => containsSub desc word) then "no rain"
  else if light_keywords.any (fun word => containsSub desc word) then "light"
  else if moderate_keywords.any (fun word => containsSub desc word) then "moderate"
  else if heavy_keywords.any (fun word => containsSub desc word) then "heavy"
  else "unknown"


/-! Canonical current reading, the `current_weather` block consumed by the
evaluators; `weather.get("current_weather", {})` followed by the falsiness
check is modelled by an `Option` field. -/

/-- Fields of the `current_weather` block that the evaluators read.
Temperature and wind speed may be absent from a provider reading; an absent
`weather_description` is identified with the default `""` the source
supplies at each `get`. -/
structure CurrentWeatherData where
  temperature_celsius : Option ℚ
  wind_speed_kph : Option ℚ
  weather_description : String
  deriving DecidableEq

/-- Weather payload handed to the evaluators; `current_weather = none`
models both a missing and an empty (falsy) `current_weather` block. -/
structure WeatherPayload where
  current_weather : Option CurrentWeatherData
  deriving DecidableEq

/-- Row of the `subscriptions` table (`Subscription` in `src/models.py`);
the `alert_type` column is a string column, so the integer accepted by
`subscribe_to_alert` is stored and read back as its decimal string. -/
structure Subscription where
  user_id : String
  location : String
  alert_type : String
  deriving DecidableEq

/-- Row of the custom subscription table (`CustomSubscription` in
`src/models.py`): integer `alert_type`, optional `operator`, and the
threshold stored as a string. -/
structure CustomSubscription where
  user_id : String
  location : String
  alert_type : ℤ
  operator : Option String
  threshold : String
  deriving DecidableEq

/-- Alert type constant for custom temperature alerts. -/
def ALERT_TYPE_TEMP : ℤ := 1

/-- Alert type constant for custom wind speed alerts. -/
def ALERT_TYPE_WIND : ℤ := 2

/-- Alert type constant for custom precipitation alerts. -/
def ALERT_TYPE_PRECIP : ℤ := 3

/-- Catalog of the eight normal alert kinds, from `ALERT_TYPES` in
`src/services/alert_functions.py`. -/
def ALERT_TYPES : List (ℤ × String) :=
  [(1, "Extreme heat warning (Temperature > 35°C)"),
   (2, "High temperature warning (Temperature > 30°C)"),
   (3, "Low temperature warning (Temperature < 5°C)"),
   (4, "Extreme low temperature warning (Temperature < 15°C)"),
   (5, "Strong winds warning (Wind speed > 40 km/h)"),
   (6, "Extreme winds warning (Wind speed > 60 km/h)"),
   (7, "Rain and possible thunderstorms warning (moderate rain)"),
   (8, "Heavy rain and thunderstorms warning (heavy rain)")]

/-- Descriptions of the three custom alert types, from `CUSTOM_ALERT_TYPE`
in `src/services/alert_functions.py`. -/
def CUSTOM_ALERT_TYPE : List (ℤ × String) :=
  [(ALERT_TYPE_TEMP, "Temperature"),
   (ALERT_TYPE_WIND, "Wind Speed"),
   (ALERT_TYPE_PRECIP, "Precipitation Alert")]

/-- Embedding of `evaluate_normal_alert`: dispatches on the stored
`alert_type` string and compares the reading against the fixed catalog
thresholds, returning a formatted message when the predicate holds and
`none` otherwise. -/
def evaluate_normal_alert (subscription : Subscription) (weather : WeatherPayload) :
    Option String :=
  match weather.current_weather with
  | none => none
  | some cw =>
    let temp := cw.temperature_celsius
    let wind := cw.wind_speed_kph
    let alert_type := subscription.alert_type
    if alert_type = "1" then
      match temp with
      | some t =>
        if t > 35 then
          some ("Alert: Temperature at " ++ subscription.location ++ " is " ++
            toString t ++ "°C, exceeding 35°C.")
        else none
      | none => none
    else if alert_type = "2" then
      match temp with
      | some t =>
        if t > 30 then
          some ("Alert: Temperature at " ++ subscription.location ++ " is " ++
            toString t ++ "°C, exceeding 30°C.")
        else none
      | none => none
    else if alert_type = "3" then
      match temp with
      | some t =>
        if t < 5 then
          some ("Alert: Temperature at " ++ subscription.location ++ " is " ++
            toString t ++ "°C, below 5°C.")
        else none
      | none => none
    else if alert_type = "4" then
      match temp with
      | some t =>
        if t < 15 then
          some ("Alert: Temperature at " ++ subscription.location ++ " is " ++
            toString t ++ "°C, below 15°C.")
        else none
      | none => none
    else if alert_type = "5" then
      match wind with
      | some w =>
        if w > 40 then
          some ("Alert: Wind speed at " ++ subscription.location ++ " is " ++
            toString w ++ " km/h, exceeding 40 km/h.")
        else none
      | none => none
    else if alert_type = "6" then
      match wind with
      | some w =>
        if w > 60 then
          some ("Alert: Wind speed at " ++ subscription.location ++ " is " ++
            toString w ++ " km/h, exceeding 60 km/h.")
        else none
      | none => none
    else if alert_type = "7" then
      if map_precipitation_category cw.weather_description = "moderate" then
        some ("Alert: Precipitation at " ++ subscription.location ++ " is moderate.")
      else none
    else if alert_type = "8" then
      if map_precipitation_category cw.weather_description = "heavy" then
        some ("Alert: Heavy rain detected at " ++ subscription.location ++ ".")
      else none
    else none

/-- Embedding of `evaluate_custom_alert`, parametrised by the Python float
parser applied to the stored threshold (`none` models the caught
exception). Temperature and wind alerts apply the stored operator strictly;
precipitation alerts fire on exact category equality. -/
def evaluate_custom_alert (pyFloat : String → Option ℚ)
    (subscription : CustomSubscription) (weather : WeatherPayload) : Option String :=
  match weather.current_weather with
  | none => none
  | some cw =>
    if subscription.alert_type = ALERT_TYPE_TEMP then
      match pyFloat subscription.threshold with
      | none => none
      | some thresh =>
        match cw.temperature_celsius with
        | none => none
        | some temp =>
          if subscription.operator = some ">" ∧ temp > thresh then
            some ("Temperature at " ++ subscription.location ++ " is " ++
              toString temp ++ "°C, exceeding " ++ subscription.threshold ++ "°C.")
          else if subscription.operator = some "<" ∧ temp < thresh then
            some ("Temperature at " ++ subscription.location ++ " is " ++
              toString temp ++ "°C, below " ++ subscription.threshold ++ "°C.")
          else none
    else if subscription.alert_type = ALERT_TYPE_WIND then
      match pyFloat subscription.threshold with
      | none => none
      | some thresh =>
        match cw.wind_speed_kph with
        | none => none
        | some wind =>
          if subscription.operator = some ">" ∧ wind > thresh then
            some ("Wind speed at " ++ subscription.location ++ " is " ++
              toString wind ++ " km/h, exceeding " ++ subscription.threshold ++ " km/h.")
          else if subscription.operator = some "<" ∧ wind < thresh then
            some ("Wind speed at " ++ subscription.location ++ " is " ++
              toString wind ++ " km/h, below " ++ subscription.threshold ++ " km/h.")
          else none
    else if subscription.alert_type = ALERT_TYPE_PRECIP then
      let current_category := map_precipitation_category cw.weather_description
      let subscribed_category := pyStrip (pyLower subscription.threshold)
      if current_category = subscribed_category then
        some ("Precipitation at " ++ subscription.location ++ " is " ++
          current_category ++ ".")
      else none
    else none

/-- Invalid alert type message of `subscribe_to_alert`. -/
def invalidAlertTypeMsg : String :=
  "Invalid alert type. Acceptable values are: " ++
    String.intercalate ", " (ALERT_TYPES.map (fun kv => toString kv.1 ++ ": " ++ kv.2))

/-- Embedding of `subscribe_to_alert`, parametrised by the Python int
parser applied to the requested alert type (`none` models the `ValueError`
branch). Returns the `(success, message)` pair of the source together with
the resulting subscription store. -/
def subscribe_to_alert (pyInt : String → Option ℤ) (store : List Subscription)
    (user_id location alert_type : String) : (Bool × String) × List Subscription :=
  if alert_type = "" then ((false, invalidAlertTypeMsg), store)
  else
    match pyInt alert_type with
    | none => ((false, invalidAlertTypeMsg), store)
    | some k =>
      match ALERT_TYPES.lookup k with
      | none => ((false, invalidAlertTypeMsg), store)
      | some descr =>
        match store.find? (fun s =>
            s.user_id == user_id && s.location == location && s.alert_type == toString k) with
        | some _ =>
          ((false, "User " ++ user_id ++ " is already subscribed to alert type " ++
            toString k ++ " (" ++ descr ++ ") for " ++ location ++ "."), store)
        | none =>
          ((true, "User " ++ user_id ++ " subscribed to alert type " ++ toString k ++
            " (" ++ descr ++ ") for " ++ location ++ "."),
           store ++ [⟨user_id, location, toString k⟩])

/-! Embedding of the service function `cancel_alert` from
`src/services/alert_functions.py`. -/

/-- Request body of `cancel_alert`; each field models `data.get(...)` on
the posted JSON, with `none` for an absent key. -/
structure CancelRequest where
  subscription_type : Option String
  location : Option String
  alert_type : Option String
  condition : Option String
  operator : Option String
  threshold : Option String
  deriving DecidableEq

/-- Outcome of `cancel_alert`: the JSON status and message, the HTTP code,
and the two subscription stores after the call. -/
structure CancelResult where
  status : String
  message : String
  httpCode : Nat
  normalStore : List Subscription
  customStore : List CustomSubscription
  deriving DecidableEq

/-- Condition-to-alert-type mapping used by the custom branches. -/
def conditionMapping : List (String × ℤ) :=
  [("temperature", ALERT_TYPE_TEMP),
   ("wind_speed", ALERT_TYPE_WIND),
   ("precipitation", ALERT_TYPE_PRECIP)]

/-- Common tail of the custom branch of `cancel_alert`: looks up the full
key in the custom store; a hit is reported as an already existing
subscription with the store unchanged, and a miss adds a new row and
reports success with a message that speaks of cancelling. This mirrors the
source line by line. -/
def cancelCustomTail (user_id location : String) (alert_type : ℤ)
    (operator : Option String) (threshold : String)
    (normalStore : List Subscription) (customStore : List CustomSubscription) :
    CancelResult :=
  match customStore.find? (fun s =>
      s.user_id == user_id && s.location == location && s.alert_type == alert_type &&
      s.operator == operator && s.threshold == threshold) with
  | some _ =>
    ⟨"error", "A subscription for this custom alert already exists at " ++ location ++ ".",
     400, normalStore, customStore⟩
  | none =>
    ⟨"success",
     "Cancelled custom alert for " ++ ((CUSTOM_ALERT_TYPE.lookup alert_type).getD "Unknown") ++
       " at " ++ location ++ " cancelled.",
     200, normalStore, customStore ++ [⟨user_id, location, alert_type, operator, threshold⟩]⟩

/-- Embedding of the service function `cancel_alert`, parametrised by the
Python int and float parsers. The normal branch deletes the first matching
row; the custom branch is `cancelCustomTail` after validation. -/
def cancel_alert (pyInt : String → Option ℤ) (pyFloat : String → Option ℚ)
    (user_id : String) (normalStore : List Subscription)
    (customStore : List CustomSubscription) (data : CancelRequest) : CancelResult :=
  let sub_type := pyStrip (pyLower (data.subscription_type.getD ""))
  if sub_type ≠ "normal" ∧ sub_type ≠ "custom" then
    ⟨"error", "subscription_type must be 'normal' or 'custom'.", 400, normalStore, customStore⟩
  else if ¬ pyTruthy data.location then
    ⟨"error", "Location is required.", 400, normalStore, customStore⟩
  else
    let location := data.location.getD ""
    if sub_type = "normal" then
      if ¬ pyTruthy data.alert_type then
        ⟨"error", "For normal subscriptions, 'alert_type' is required.", 400,
         normalStore, customStore⟩
      else
        match pyInt (data.alert_type.getD "") with
        | none =>
          ⟨"error", "alert_type must be an integer.", 400, normalStore, customStore⟩
        | some alert_type_int =>
          let key := fun (s : Subscription) =>
            s.user_id == user_id && s.location == location &&
            s.alert_type == toString alert_type_int
          match normalStore.find? key with
          | some _ =>
            ⟨"success",
             "Cancelled normal alert type " ++ toString alert_type_int ++ " (" ++
               ((CUSTOM_ALERT_TYPE.lookup alert_type_int).getD "Unknown") ++ ") for " ++
               location ++ ".",
             200, removeFirst key normalStore, customStore⟩
          | none =>
            ⟨"error",
             "No active normal subscription for alert type " ++ toString alert_type_int ++
               " (" ++ ((CUSTOM_ALERT_TYPE.lookup alert_type_int).getD "Unknown") ++ ") in " ++
               location ++ ".",
             400, normalStore, customStore⟩
    else
      if ¬ pyTruthy data.condition then
        ⟨"error", "For custom subscriptions, 'condition' is required.", 400,
         normalStore, customStore⟩
      else
        let cond_lower := pyStrip (pyLower (data.condition.getD ""))
        match conditionMapping.lookup cond_lower with
        | none =>
          ⟨"error", "Condition must be 'temperature', 'wind_speed', or 'precipitation'.",
           400, normalStore, customStore⟩
        | some alert_type =>
          if alert_type = ALERT_TYPE_TEMP ∨ alert_type = ALERT_TYPE_WIND then
            if ¬ pyTruthy data.operator ∨
                (pyStrip (data.operator.getD "") ≠ ">" ∧ pyStrip (data.operator.getD "") ≠ "<") then
              ⟨"error",
               "For custom temperature and wind_speed alerts, 'operator' is required and must be '>' or '<'.",
               400, normalStore, customStore⟩
            else
              let operator := pyStrip (data.operator.getD "")
              match data.threshold with
              | none =>
                ⟨"error", "For custom temperature and wind_speed alerts, 'threshold' is required.",
                 400, normalStore, customStore⟩
              | some threshold =>
                match pyFloat threshold with
                | none =>
                  ⟨"error", "For custom temperature and wind_speed alerts, 'threshold' must be numeric.",
                   400, normalStore, customStore⟩
                | some _ =>
                  cancelCustomTail user_id location alert_type (some operator) threshold
                    normalStore customStore
          else
            let valid_levels : List String := ["no rain", "light", "moderate", "heavy"]
            if ¬ pyTruthy data.threshold ∨
                pyStrip (pyLower (data.threshold.getD "")) ∉ valid_levels then
              ⟨"error",
               "For custom precipitation alerts, 'threshold' must be one of: no rain, light, moderate, heavy.",
               400, normalStore, customStore⟩
            else
              cancelCustomTail user_id location alert_type none
                (pyStrip (pyLower (data.threshold.getD ""))) normalStore customStore

/-! Embedding of `geocode_location` and `get_weather_description` from
`src/services/weather_functions.py`. Provider candidates are the typed
interface of the geocoding service: latitude, longitude and importance are
numbers, the address breakdown carries the seven fields the source reads,
and `display_name` is optional. The provider call is a parameter: `none`
models the caught network exception, `some candidates` a response. The
similarity routine `difflib.SequenceMatcher(...).ratio()` is a parameter
`simRatio` of the embedding. -/

/-- Address breakdown of a geocoding candidate; a `some` field models a key
present in the address dictionary (possibly with an empty value). -/
structure GeoAddress where
  city : Option String
  town : Option String
  village : Option String
  locality : Option String
  county : Option String
  state : Option String
  country : Option String
  deriving DecidableEq

/-- Geocoding candidate as returned by the provider. -/
structure GeoCandidate where
  lat : ℚ
  lon : ℚ
  importance : Option ℚ
  address : GeoAddress
  display_name : Option String
  deriving DecidableEq

/-- Resolved place returned by `geocode_location`. -/
structure GeoPlace where
  lat : ℚ
  lon : ℚ
  name : Option String
  region : Option String
  country : Option String
  deriving DecidableEq

/-- Models `normalize` from the source: strip then lower-case, with the
empty string for falsy input. -/
def normalizeText (text : String) : String :=
  if text ≠ "" then pyLower (pyStrip text) else ""

/-- Ordered field list the source builds for a candidate: the address
fields present, in the order city, town, village, locality, county,
state, country, followed by a truthy `display_name`. -/
def candidate_fields (c : GeoCandidate) : List String :=
  ([c.address.city, c.address.town, c.address.village, c.address.locality,
    c.address.county, c.address.state, c.address.country].filterMap id) ++
  (if pyTruthy c.display_name then [c.display_name.getD ""] else [])

/-- Place extracted from an accepted candidate, with the Python `or` chains
for name and region. -/
def placeOf (c : GeoCandidate) : GeoPlace :=
  { lat := c.lat
    lon := c.lon
    name := pyOrS c.address.city (pyOrS c.address.town (pyOrS c.address.village
      (pyOrS c.address.locality c.display_name)))
    region := pyOrS c.address.state c.address.county
    country := c.address.country }

/-- Candidate importance with the default 0 of `x.get("importance", 0)`. -/
def impOrZero (c : GeoCandidate) : ℚ :=
  c.importance.getD 0

/-- Importance-descending order on candidates: `a` may stand before `b`
when the importance of `a` is at least that of `b`. With this total
transitive relation a stable sort is unique, so `List.insertionSort`
models the stable Python `sorted(..., key=importance, reverse=True)`. -/
def impDescRel (a b : GeoCandidate) : Prop :=
  impOrZero b ≤ impOrZero a

instance : DecidableRel impDescRel :=
  fun a b => inferInstanceAs (Decidable (impOrZero b ≤ impOrZero a))

instance : IsTotal GeoCandidate impDescRel :=
  ⟨fun a b => le_total (impOrZero b) (impOrZero a)⟩

instance : IsTrans GeoCandidate impDescRel :=
  ⟨fun _ _ _ hab hbc => le_trans hbc hab⟩

/-- Acceptance test for one field: the normalized query is a substring of
the normalized field, or the similarity ratio reaches the 0.65 floor. -/
def fieldAccept (simRatio : String → String → ℚ) (query_norm field : String) : Bool :=
  let norm_field := normalizeText field
  containsSub norm_field query_norm || decide ((65 : ℚ)/100 ≤ simRatio query_norm norm_field)

/-- Inner loop of `geocode_location`: scans the field list of one candidate
and returns its place at the first accepted field. -/
def scanFields (simRatio : String → String → ℚ) (query_norm : String)
    (c : GeoCandidate) : List String → Option GeoPlace
  | [] => none
  | f :: fs =>
    if fieldAccept simRatio query_norm f then some (placeOf c)
    else scanFields simRatio query_norm c fs

/-- Outer loop of `geocode_location`: scans the sorted candidates and
returns the first place accepted by `scanFields`. -/
def scanCandidates (simRatio : String → String → ℚ) (query_norm : String) :
    List GeoCandidate → Option GeoPlace
  | [] => none
  | c :: cs =>
    match scanFields simRatio query_norm c (candidate_fields c) with
    | some p => some p
    | none => scanCandidates simRatio query_norm cs

/-- Embedding of `geocode_location`: trims the query and rejects an empty
one, rejects an unreachable provider (`none`) and an empty candidate list,
sorts candidates by importance descending with the stable sort of Python
`sorted(..., reverse=True)`, and scans them for the first acceptance. -/
def geocode_location (simRatio : String → String → ℚ) (location : String)
    (providerResponse : Option (List GeoCandidate)) : Option GeoPlace :=
  let location := pyStrip location
  if location = "" then none
  else
    let query_norm := normalizeText location
    match providerResponse with
    | none => none
    | some data =>
      if data = [] then none
      else
        let sorted_results := List.insertionSort impDescRel data
        scanCandidates simRatio query_norm sorted_results

/-- Embedding of `get_weather_description`: the fixed weather code table
with the default `"Unknown"`. -/
def get_weather_description (code : ℤ) : String :=
  (([(0, "Clear sky"), (1, "Mainly clear"), (2, "Partly cloudy"), (3, "Overcast"),
     (45, "Fog"), (48, "Depositing rime fog"), (51, "Light drizzle"),
     (53, "Moderate drizzle"), (55, "Dense drizzle"), (56, "Light freezing drizzle"),
     (57, "Dense freezing drizzle"), (61, "Slight rain"), (63, "Moderate rain"),
     (65, "Heavy rain"), (66, "Light freezing rain"), (67, "Heavy freezing rain"),
     (71, "Slight snow fall"), (73, "Moderate snow fall"), (75, "Heavy snow fall"),
     (77, "Snow grains"), (80, "Slight rain showers"), (81, "Moderate rain showers"),
     (82, "Heavy rain showers"), (85, "Slight snow showers"), (86, "Heavy snow showers"),
     (95, "Slight or moderate thunderstorm"), (96, "Thunderstorm with slight hail"),
     (99, "Thunderstorm with heavy hail")] : List (ℤ × String)).lookup code).getD "Unknown"

/-! Embedding of `log_user_search` and
`update_user_preferences_from_history` from
`src/services/user_functions.py`. The search history table and the
preference table are lists of rows in insertion order; `ORDER BY
search_count DESC` is a stable sort, timestamps are natural
numbers supplied by the caller. -/

/-- Row of the `user_search_history` table. -/
structure UserSearchHistoryRow where
  user_id : String
  location : String
  search_count : ℤ
  last_searched : Nat
  deriving DecidableEq

/-- Row of the `user_preferences` table (only the field the ranker
writes). -/
structure UserPreferenceRow where
  user_id : String
  top_searches : List String
  deriving DecidableEq

/-- State of the two tables the ranker touches. -/
structure UserDB where
  history : List UserSearchHistoryRow
  preferences : List UserPreferenceRow
  deriving DecidableEq

/-- Descending order on `search_count` used for `ORDER BY search_count
DESC`: with this total transitive relation a stable sort is unique, so
`List.insertionSort` models the stable ordering the spec requires of the
store. -/
def countDescRel (a b : UserSearchHistoryRow) : Prop :=
  b.search_count ≤ a.search_count

instance : DecidableRel countDescRel :=
  fun a b => inferInstanceAs (Decidable (b.search_count ≤ a.search_count))

instance : IsTotal UserSearchHistoryRow countDescRel :=
  ⟨fun a b => le_total b.search_count a.search_count⟩

instance : IsTrans UserSearchHistoryRow countDescRel :=
  ⟨fun _ _ _ hab hbc => le_trans hbc hab⟩

/-- Embedding of `update_user_preferences_from_history`: takes the top 5
history rows of the user in the stable descending order of their counts,
and writes their locations into the preference row of the user, creating
that row when absent. -/
def update_user_preferences_from_history (user_id : String) (database : UserDB) :
    UserDB :=
  let search_history :=
    ((List.insertionSort countDescRel (database.history.filter (fun r => r.user_id == user_id))).take 5)
  let top_locations := search_history.map (fun r => r.location)
  let preferences :=
    match database.preferences.find? (fun p => p.user_id == user_id) with
    | some _ =>
      updateFirst (fun p => p.user_id == user_id)
        (fun p => { p with top_searches := top_locations }) database.preferences
    | none => database.preferences ++ [⟨user_id, top_locations⟩]
  { database with preferences := preferences }

/-- Embedding of `log_user_search`: increments the count and refreshes the
timestamp of an existing (user, location) row, or creates the row with
count 1, then recomputes the preference row from the whole history. -/
def log_user_search (now : Nat) (database : UserDB) (user_id location : String) :
    UserDB :=
  let key := fun (r : UserSearchHistoryRow) => r.user_id == user_id && r.location == location
  let history :=
    match database.history.find? key with
    | some _ =>
      updateFirst key
        (fun r => { r with search_count := r.search_count + 1, last_searched := now })
        database.history
    | none => database.history ++ [⟨user_id, location, 1, now⟩]
  update_user_preferences_from_history user_id { database with history := history }

/-! Claim theorems. -/

/-- C2: the precipitation classifier is total, returning one of the five
categories for every description; the four keyword buckets are checked in
the fixed priority order no rain, light, moderate, heavy, the first bucket
containing a substring match of the lower-cased description wins, and with
no keyword match the result is unknown. -/
theorem classify_precipitation_total_and_ordered (d : String) :
    map_precipitation_category d ∈
      (["no rain", "light", "moderate", "heavy", "unknown"] : List String)
    ∧ (no_rain_keywords.any (fun w => containsSub (pyLower d) w) = true →
        map_precipitation_category d = "no rain")
    ∧ (no_rain_keywords.any (fun w => containsSub (pyLower d) w) = false →
       light_keywords.any (fun w => containsSub (pyLower d) w) = true →
        map_precipitation_category d = "light")
    ∧ (no_rain_keywords.any (fun w => containsSub (pyLower d) w) = false →
       light_keywords.any (fun w => containsSub (pyLower d) w) = false →
       moderate_keywords.any (fun w => containsSub (pyLower d) w) = true →
        map_precipitation_category d = "moderate")
    ∧ (no_rain_keywords.any (fun w => containsSub (pyLower d) w) = false →
       light_keywords.any (fun w => containsSub (pyLower d) w) = false →
       moderate_keywords.any (fun w => containsSub (pyLower d) w) = false →
       heavy_keywords.any (fun w => containsSub (pyLower d) w) = true →
        map_precipitation_category d = "heavy")
    ∧ (no_rain_keywords.any (fun w => containsSub (pyLower d) w) = false →
       light_keywords.any (fun w => containsSub (pyLower d) w) = false →
       moderate_keywords.any (fun w => containsSub (pyLower d) w) = false →
       heavy_keywords.any (fun w => containsSub (pyLower d) w) = false →
        map_precipitation_category d = "unknown") := by
  cases hn : no_rain_keywords.any (fun w => containsSub (pyLower d) w) <;>
  cases hl : light_keywords.any (fun w => containsSub (pyLower d) w) <;>
  cases hm : moderate_keywords.any (fun w => containsSub (pyLower d) w) <;>
  cases hh : heavy_keywords.any (fun w => containsSub (pyLower d) w) <;>
  simp [map_precipitation_category, hn, hl, hm, hh]

/-- Witness for C2: the classifier resolves a light-bucket description to
light, through the priority theorem at a concrete input. -/
theorem classify_precipitation_total_and_ordered_witness :
    map_precipitation_category "light drizzle" = "light" :=
  (classify_precipitation_total_and_ordered "light drizzle").2.2.1 (by decide) (by decide)

/-- C3: for a reading with a present temperature t, a kind 1 normal
subscription produces a message iff t > 35 and a kind 2 subscription
produces a message iff t > 30 (the store represents the kinds as the
decimal strings of the catalog numbers); the kinds are evaluated
independently per subscription, and at t = 36 subscriptions of both kinds
produce a message. -/
theorem normal_kind1_kind2_independent (u₁ u₂ loc₁ loc₂ : String)
    (cw : CurrentWeatherData) (t : ℚ) (ht : cw.temperature_celsius = some t) :
    ((evaluate_normal_alert ⟨u₁, loc₁, "1"⟩ ⟨some cw⟩).isSome ↔ t > 35)
    ∧ ((evaluate_normal_alert ⟨u₂, loc₂, "2"⟩ ⟨some cw⟩).isSome ↔ t > 30)
    ∧ (t = 36 → (evaluate_normal_alert ⟨u₁, loc₁, "1"⟩ ⟨some cw⟩).isSome
        ∧ (evaluate_normal_alert ⟨u₂, loc₂, "2"⟩ ⟨some cw⟩).isSome) := by
  have h1 : (evaluate_normal_alert ⟨u₁, loc₁, "1"⟩ ⟨some cw⟩).isSome ↔ t > 35 := by
    by_cases h : t > 35 <;> simp [evaluate_normal_alert, ht, h]
  have h2 : (evaluate_normal_alert ⟨u₂, loc₂, "2"⟩ ⟨some cw⟩).isSome ↔ t > 30 := by
    by_cases h : t > 30 <;> simp [evaluate_normal_alert, ht, h]
  refine ⟨h1, h2, fun h36 => ⟨h1.mpr ?_, h2.mpr ?_⟩⟩ <;> rw [h36] <;> norm_num

/-- Witness for C3: a reading of 36 degrees makes both a kind 1 and a
kind 2 subscription fire, through the theorem at a concrete input. -/
theorem normal_kind1_kind2_independent_witness :
    (evaluate_normal_alert ⟨"u1", "London", "1"⟩ ⟨some ⟨some 36, none, ""⟩⟩).isSome
    ∧ (evaluate_normal_alert ⟨"u2", "London", "2"⟩ ⟨some ⟨some 36, none, ""⟩⟩).isSome :=
  (normal_kind1_kind2_independent "u1" "u2" "London" "London"
    ⟨some 36, none, ""⟩ 36 rfl).2.2 rfl

/-- C4: a custom temperature subscription whose stored threshold parses to
x and whose operator is the strict greater-than fires on a present
temperature t iff t > x, and with the less-than operator iff t < x; in
particular with threshold 30 it fires at 31 and stays silent at 29 and at
30. -/
theorem custom_temperature_strict (pyFloat : String → Option ℚ)
    (sub : CustomSubscription) (x t : ℚ) (cw : CurrentWeatherData)
    (hk : sub.alert_type = ALERT_TYPE_TEMP)
    (hparse : pyFloat sub.threshold = some x)
    (ht : cw.temperature_celsius = some t) :
    ((sub.operator = some ">" →
       ((evaluate_custom_alert pyFloat sub ⟨some cw⟩).isSome ↔ t > x))
     ∧ (sub.operator = some "<" →
       ((evaluate_custom_alert pyFloat sub ⟨some cw⟩).isSome ↔ t < x)))
    ∧ (evaluate_custom_alert pyFloatDec ⟨"u", "London", ALERT_TYPE_TEMP, some ">", "30"⟩
        ⟨some ⟨some 31, none, ""⟩⟩).isSome = true
    ∧ (evaluate_custom_alert pyFloatDec ⟨"u", "London", ALERT_TYPE_TEMP, some ">", "30"⟩
        ⟨some ⟨some 29, none, ""⟩⟩).isSome = false
    ∧ (evaluate_custom_alert pyFloatDec ⟨"u", "London", ALERT_TYPE_TEMP, some ">", "30"⟩
        ⟨some ⟨some 30, none, ""⟩⟩).isSome = false := by
  refine ⟨⟨?_, ?_⟩, by decide, by decide, by decide⟩
  · intro hop
    by_cases h : t > x <;>
      simp [evaluate_custom_alert, hk, hparse, ht, hop, h, ALERT_TYPE_TEMP]
  · intro hop
    by_cases h : t < x <;>
      simp [evaluate_custom_alert, hk, hparse, ht, hop, h, ALERT_TYPE_TEMP]

/-- Witness for C4: a greater-than subscription with threshold 30 fires at
temperature 31, through the theorem at a concrete input. -/
theorem custom_temperature_strict_witness :
    (evaluate_custom_alert pyFloatDec ⟨"u", "London", ALERT_TYPE_TEMP, some ">", "30"⟩
      ⟨some ⟨some 31, none, ""⟩⟩).isSome :=
  ((custom_temperature_strict pyFloatDec
      ⟨"u", "London", ALERT_TYPE_TEMP, some ">", "30"⟩ 30 31
      ⟨some 31, none, ""⟩ rfl (by decide) rfl).1.1 rfl).mpr (by norm_num)

/-- C7: the evaluators are total functions into an option type (so no
exception can escape them in the embedding), a stored custom threshold
that does not parse yields no match, and a reading missing the field a
subscription needs (temperature for temperature kinds, wind speed for wind
kinds) yields no match rather than an error, for custom and for normal
subscriptions alike. -/
theorem evaluators_missing_fields_no_match (pyFloat : String → Option ℚ)
    (sub : CustomSubscription) (nsub : Subscription) (cw : CurrentWeatherData) :
    (sub.alert_type = ALERT_TYPE_TEMP → pyFloat sub.threshold = none →
      evaluate_custom_alert pyFloat sub ⟨some cw⟩ = none)
    ∧ (sub.alert_type = ALERT_TYPE_WIND → pyFloat sub.threshold = none →
      evaluate_custom_alert pyFloat sub ⟨some cw⟩ = none)
    ∧ (sub.alert_type = ALERT_TYPE_TEMP → cw.temperature_celsius = none →
      evaluate_custom_alert pyFloat sub ⟨some cw⟩ = none)
    ∧ (sub.alert_type = ALERT_TYPE_WIND → cw.wind_speed_kph = none →
      evaluate_custom_alert pyFloat sub ⟨some cw⟩ = none)
    ∧ (cw.temperature_celsius = none →
       nsub.alert_type ∈ (["1", "2", "3", "4"] : List String) →
      evaluate_normal_alert nsub ⟨some cw⟩ = none)
    ∧ (cw.wind_speed_kph = none →
       nsub.alert_type ∈ (["5", "6"] : List String) →
      evaluate_normal_alert nsub ⟨some cw⟩ = none) := by
  obtain ⟨nu, nl, nk⟩ := nsub
  refine ⟨?_, ?_, ?_, ?_, ?_, ?_⟩
  · intro hk hp
    simp [evaluate_custom_alert, hk, hp, ALERT_TYPE_TEMP]
  · intro hk hp
    simp [evaluate_custom_alert, hk, hp, ALERT_TYPE_WIND, ALERT_TYPE_TEMP]
  · intro hk htemp
    cases hp : pyFloat sub.threshold <;>
      simp [evaluate_custom_alert, hk, hp, htemp, ALERT_TYPE_TEMP]
  · intro hk hwind
    cases hp : pyFloat sub.threshold <;>
      simp [evaluate_custom_alert, hk, hp, hwind, ALERT_TYPE_WIND, ALERT_TYPE_TEMP]
  · intro htemp hmem
    simp only [List.mem_cons, List.not_mem_nil, or_false] at hmem
    rcases hmem with h | h | h | h <;> subst h <;>
      simp [evaluate_normal_alert, htemp]
  · intro hwind hmem
    simp only [List.mem_cons, List.not_mem_nil, or_false] at hmem
    rcases hmem with h | h <;> subst h <;>
      simp [evaluate_normal_alert, hwind]

/-- Witness for C7: a temperature subscription whose stored threshold is
not numeric evaluates to no match, through the theorem at a concrete
input. -/
theorem evaluators_missing_fields_no_match_witness :
    evaluate_custom_alert pyFloatDec
      ⟨"u", "London", ALERT_TYPE_TEMP, some ">", "abc"⟩
      ⟨some ⟨some 50, some 10, "Clear sky"⟩⟩ = none :=
  (evaluators_missing_fields_no_match pyFloatDec
      ⟨"u", "London", ALERT_TYPE_TEMP, some ">", "abc"⟩
      ⟨"u", "London", "1"⟩ ⟨some 50, some 10, "Clear sky"⟩).1 rfl (by decide)

/-- C10: the description the weather-code table produces for code 66 is
Light freezing rain, the classifier maps it to unknown, and on a reading
carrying that description no precipitation alert fires: not the normal
kinds 7 and 8, and not any custom precipitation subscription whose stored
threshold normalizes to one of the four valid categories. -/
theorem freezing_rain_unclassified (u loc : String) (temp wind : Option ℚ)
    (pyFloat : String → Option ℚ) (sub : CustomSubscription)
    (hk : sub.alert_type = ALERT_TYPE_PRECIP)
    (hv : pyStrip (pyLower sub.threshold) ∈
      (["no rain", "light", "moderate", "heavy"] : List String)) :
    get_weather_description 66 = "Light freezing rain"
    ∧ map_precipitation_category "Light freezing rain" = "unknown"
    ∧ evaluate_normal_alert ⟨u, loc, "7"⟩
        ⟨some ⟨temp, wind, "Light freezing rain"⟩⟩ = none
    ∧ evaluate_normal_alert ⟨u, loc, "8"⟩
        ⟨some ⟨temp, wind, "Light freezing rain"⟩⟩ = none
    ∧ evaluate_custom_alert pyFloat sub
        ⟨some ⟨temp, wind, "Light freezing rain"⟩⟩ = none := by
  refine ⟨by decide, by decide, ?_, ?_, ?_⟩
  · simp [evaluate_normal_alert]
    decide
  · simp [evaluate_normal_alert]
    decide
  · simp only [List.mem_cons, List.not_mem_nil, or_false] at hv
    have hcat : map_precipitation_category "Light freezing rain" = "unknown" := by decide
    rcases hv with h | h | h | h <;>
      simp [evaluate_custom_alert, hk, hcat, h, ALERT_TYPE_PRECIP, ALERT_TYPE_WIND,
        ALERT_TYPE_TEMP]

/-- Witness for C10: a stored heavy precipitation subscription does not
fire on the code 66 description, through the theorem at a concrete
input. -/
theorem freezing_rain_unclassified_witness :
    evaluate_custom_alert pyFloatDec ⟨"u", "London", ALERT_TYPE_PRECIP, none, "heavy"⟩
      ⟨some ⟨some 10, some 5, "Light freezing rain"⟩⟩ = none :=
  (freezing_rain_unclassified "u" "London" (some 10) (some 5) pyFloatDec
    ⟨"u", "London", ALERT_TYPE_PRECIP, none, "heavy"⟩ rfl (by decide)).2.2.2.2

/-- Helper: a search that fails on the first list continues on the
second. -/
theorem findAppendNone (p : α → Bool) (l₁ l₂ : List α) (h : l₁.find? p = none) :
    (l₁ ++ l₂).find? p = l₂.find? p := by
  induction l₁ with
  | nil => simp
  | cons a as ih =>
    cases hpa : p a with
    | true => simp [List.find?_cons_of_pos, hpa] at h
    | false =>
      have hpa2 : ¬ p a = true := by simp [hpa]
      rw [List.find?_cons_of_neg _ hpa2] at h
      rw [List.cons_append, List.find?_cons_of_neg _ hpa2]
      exact ih h

/-- C8: subscribing with an alert kind outside the catalog of the eight
kinds, including input the int parser rejects and the falsy empty string,
is rejected with the store unchanged; from a store without the (user,
location, kind) triple, a first subscribe succeeds and appends the row,
and a second identical subscribe is rejected with the already subscribed
message and no overwrite, leaving exactly one row for that triple. -/
theorem subscribe_catalog_and_duplicate (pyInt : String → Option ℤ)
    (store : List Subscription) (u loc s : String) (k : ℤ) (descr : String) :
    (s = "" →
      subscribe_to_alert pyInt store u loc s = ((false, invalidAlertTypeMsg), store))
    ∧ (pyInt s = none →
      subscribe_to_alert pyInt store u loc s = ((false, invalidAlertTypeMsg), store))
    ∧ (pyInt s = some k → ALERT_TYPES.lookup k = none →
      subscribe_to_alert pyInt store u loc s = ((false, invalidAlertTypeMsg), store))
    ∧ (s ≠ "" → pyInt s = some k → ALERT_TYPES.lookup k = some descr →
      (store.filter (fun r =>
        r.user_id == u && r.location == loc && r.alert_type == toString k)).length = 0 →
      (subscribe_to_alert pyInt store u loc s).1.1 = true
      ∧ (subscribe_to_alert pyInt store u loc s).2 = store ++ [⟨u, loc, toString k⟩]
      ∧ ((subscribe_to_alert pyInt store u loc s).2.filter (fun r =>
          r.user_id == u && r.location == loc && r.alert_type == toString k)).length = 1
      ∧ (subscribe_to_alert pyInt
          ((subscribe_to_alert pyInt store u loc s).2) u loc s).1.1 = false
      ∧ (subscribe_to_alert pyInt
          ((subscribe_to_alert pyInt store u loc s).2) u loc s).1.2 =
          "User " ++ u ++ " is already subscribed to alert type " ++ toString k ++
            " (" ++ descr ++ ") for " ++ loc ++ "."
      ∧ (subscribe_to_alert pyInt
          ((subscribe_to_alert pyInt store u loc s).2) u loc s).2 =
          (subscribe_to_alert pyInt store u loc s).2) := by
  refine ⟨?_, ?_, ?_, ?_⟩
  · intro hs
    simp [subscribe_to_alert, hs]
  · intro hp
    by_cases hs : s = "" <;> simp [subscribe_to_alert, hs, hp]
  · intro hp hl
    by_cases hs : s = "" <;> simp [subscribe_to_alert, hs, hp, hl]
  · intro hs hp hl hcount
    have hnil : store.filter (fun r =>
        r.user_id == u && r.location == loc && r.alert_type == toString k) = [] :=
      List.length_eq_zero.mp hcount
    have hfind : store.find? (fun r =>
        r.user_id == u && r.location == loc && r.alert_type == toString k) = none :=
      List.find?_eq_none.mpr (List.filter_eq_nil_iff.mp hnil)
    have hrow : (fun r : Subscription =>
        r.user_id == u && r.location == loc && r.alert_type == toString k)
        ⟨u, loc, toString k⟩ = true := by simp
    have hfirst : subscribe_to_alert pyInt store u loc s =
        ((true, "User " ++ u ++ " subscribed to alert type " ++ toString k ++
          " (" ++ descr ++ ") for " ++ loc ++ "."), store ++ [⟨u, loc, toString k⟩]) := by
      simp [subscribe_to_alert, hs, hp, hl, hfind]
    have hfind2 : (store ++ [(⟨u, loc, toString k⟩ : Subscription)]).find? (fun r =>
        r.user_id == u && r.location == loc && r.alert_type == toString k) =
        some ⟨u, loc, toString k⟩ := by
      rw [findAppendNone _ _ _ hfind]
      simp [List.find?_cons_of_pos, hrow]
    have hsecond : subscribe_to_alert pyInt (store ++ [⟨u, loc, toString k⟩]) u loc s =
        ((false, "User " ++ u ++ " is already subscribed to alert type " ++ toString k ++
          " (" ++ descr ++ ") for " ++ loc ++ "."), store ++ [⟨u, loc, toString k⟩]) := by
      simp [subscribe_to_alert, hs, hp, hl, hfind2]
    rw [hfirst]
    refine ⟨rfl, rfl, ?_, ?_, ?_, ?_⟩
    · rw [List.filter_append, hnil]
      simp [hrow]
    · rw [hsecond]
    · rw [hsecond]
    · rw [hsecond]

/-- Witness for C8: from an empty store, subscribing twice to kind 2 for
the same user and location succeeds once, is rejected the second time, and
leaves exactly the one row, through the theorem at a concrete input. -/
theorem subscribe_catalog_and_duplicate_witness :
    (subscribe_to_alert pyIntDec [] "alice" "London" "2").1.1 = true
    ∧ (subscribe_to_alert pyIntDec
        ((subscribe_to_alert pyIntDec [] "alice" "London" "2").2)
        "alice" "London" "2").1.1 = false
    ∧ (subscribe_to_alert pyIntDec
        ((subscribe_to_alert pyIntDec [] "alice" "London" "2").2)
        "alice" "London" "2").2 = [⟨"alice", "London", "2"⟩] := by
  obtain ⟨h1, h2, h3, h4, h5, h6⟩ :=
    (subscribe_catalog_and_duplicate pyIntDec [] "alice" "London" "2" 2
      "High temperature warning (Temperature > 30°C)").2.2.2
      (by decide) (by decide) (by decide) (by decide)
  exact ⟨h1, h4, by rw [h6, h2]; rfl⟩

/-- C1: evaluation of the service function cancel_alert at a cancel request
whose key differs only in the threshold from the one stored custom
subscription. The claim expects a no-match error distinct from success and
an unchanged store; the function instead reports success with a
cancellation message and appends a new subscription row, keeping the
original row as well. -/
theorem cancel_alert_no_match_inserts :
    cancel_alert pyIntDec pyFloatDec "alice" []
      [⟨"alice", "London", ALERT_TYPE_TEMP, some ">", "35"⟩]
      ⟨some "custom", some "London", none, some "temperature", some ">", some "40"⟩ =
    ⟨"success", "Cancelled custom alert for Temperature at London cancelled.", 200, [],
     [⟨"alice", "London", ALERT_TYPE_TEMP, some ">", "35"⟩,
      ⟨"alice", "London", ALERT_TYPE_TEMP, some ">", "40"⟩]⟩ := by
  decide

/-- C6: the resolver is a total function into an option type, so in the
embedding no exception passes its boundary; a query that is empty after
trimming resolves to the none sentinel, an unreachable provider resolves
to none, and an empty candidate list resolves to none, for every
similarity routine. -/
theorem geocode_sentinel_boundary (simRatio : String → String → ℚ) (loc : String)
    (resp : Option (List GeoCandidate)) :
    (pyStrip loc = "" → geocode_location simRatio loc resp = none)
    ∧ geocode_location simRatio loc none = none
    ∧ geocode_location simRatio loc (some []) = none := by
  refine ⟨?_, ?_, ?_⟩
  · intro h
    simp [geocode_location, h]
  · by_cases h : pyStrip loc = "" <;> simp [geocode_location, h]
  · by_cases h : pyStrip loc = "" <;> simp [geocode_location, h]

/-- Witness for C6: a whitespace query resolves to the none sentinel even
with candidates available, through the theorem at a concrete input. -/
theorem geocode_sentinel_boundary_witness :
    geocode_location (fun _ _ => 1) "   "
      (some [⟨51, 0, some 1, ⟨some "London", none, none, none, none, none, none⟩,
        some "London"⟩]) = none :=
  (geocode_sentinel_boundary (fun _ _ => 1) "   "
    (some [⟨51, 0, some 1, ⟨some "London", none, none, none, none, none, none⟩,
      some "London"⟩])).1 (by decide)

/-- Helper: the field scan of one candidate accepts exactly when some field
passes the acceptance test, and then yields the place of that candidate. -/
theorem scanFieldsEq (simRatio : String → String → ℚ) (qn : String)
    (c : GeoCandidate) (fs : List String) :
    scanFields simRatio qn c fs =
      if fs.any (fieldAccept simRatio qn) then some (placeOf c) else none := by
  induction fs with
  | nil => simp [scanFields]
  | cons f fs ih =>
    by_cases h : fieldAccept simRatio qn f = true <;>
      simp [scanFields, h, ih]

/-- Helper: the candidate scan returns the place of the first candidate
with an accepted field. -/
theorem scanCandidatesEq (simRatio : String → String → ℚ) (qn : String)
    (cs : List GeoCandidate) :
    scanCandidates simRatio qn cs =
      (cs.find? (fun c => (candidate_fields c).any (fieldAccept simRatio qn))).map
        placeOf := by
  induction cs with
  | nil => simp [scanCandidates]
  | cons c cs ih =>
    rw [scanCandidates, scanFieldsEq, List.find?_cons]
    by_cases h : (candidate_fields c).any (fieldAccept simRatio qn) = true
    · simp [h]
    · simp [h, ih]

/-- C5: on a non-empty trimmed query and a non-empty candidate list the
resolver works on the importance-descending stable reordering of the
candidates (a permutation, pairwise descending, and every pairwise
descending run in provider order survives in order, which pins the order
of ties); it returns the place of the first candidate in that order having
a field whose normalization contains the normalized query as a substring
or whose similarity ratio against it reaches 0.65, the fields of a
candidate being scanned as the populated address fields in precedence
order followed by the display name (the field list `candidate_fields`);
with no accepted candidate it returns the none sentinel. -/
theorem geocode_first_accepted (simRatio : String → String → ℚ) (loc : String)
    (cands : List GeoCandidate) (hq : pyStrip loc ≠ "") (hne : cands ≠ []) :
    (List.insertionSort impDescRel cands).Perm cands
    ∧ List.Pairwise (fun a b => impOrZero b ≤ impOrZero a)
        (List.insertionSort impDescRel cands)
    ∧ (∀ run : List GeoCandidate, run.Pairwise impDescRel → run.Sublist cands →
        run.Sublist (List.insertionSort impDescRel cands))
    ∧ geocode_location simRatio loc (some cands) =
        ((List.insertionSort impDescRel cands).find? (fun c =>
          (candidate_fields c).any
            (fieldAccept simRatio (normalizeText (pyStrip loc))))).map placeOf := by
  refine ⟨List.perm_insertionSort impDescRel cands,
    List.sorted_insertionSort impDescRel cands, ?_, ?_⟩
  · intro run hp hs
    exact List.sublist_insertionSort hp hs
  · simp [geocode_location, hq, hne, scanCandidatesEq]

/-- Witness for C5: a single exact candidate for London resolves to its
place, through the theorem at a concrete input. -/
theorem geocode_first_accepted_witness :
    geocode_location (fun _ _ => 0) "London"
      (some [⟨51, 0, some 1, ⟨some "London", none, none, none, none, none, none⟩,
        some "London, UK"⟩]) =
      some ⟨51, 0, some "London", none, none⟩ := by
  have h := (geocode_first_accepted (fun _ _ => 0) "London"
      [⟨51, 0, some 1, ⟨some "London", none, none, none, none, none, none⟩,
        some "London, UK"⟩] (by decide) (by decide)).2.2.2
  rw [h]
  decide

/-- Helper: searching an updated list finds the image of what the search
of the original list finds, when the update preserves the predicate. -/
theorem findUpdateFirst (p : α → Bool) (f : α → α) (l : List α)
    (hf : ∀ a, p a = true → p (f a) = true) :
    (updateFirst p f l).find? p = (l.find? p).map f := by
  induction l with
  | nil => simp [updateFirst]
  | cons a as ih =>
    by_cases h : p a = true
    · simp [updateFirst, h, List.find?_cons, hf a h]
    · simp [updateFirst, h, List.find?_cons, ih]

/-- Helper: updating the first match rewrites exactly the first matching
element of a decomposed list. -/
theorem updateFirstAppend (p : α → Bool) (f : α → α) (pre post : List α) (r : α)
    (hpre : ∀ q ∈ pre, p q = false) (hr : p r = true) :
    updateFirst p f (pre ++ r :: post) = pre ++ f r :: post := by
  induction pre with
  | nil => simp [updateFirst, hr]
  | cons a as ih =>
    have ha : p a = false := hpre a (by simp)
    simp only [List.cons_append, updateFirst, ha]
    simp [ih (fun q hq => hpre q (by simp [hq]))]

/-- Helper: recomputing the preferences leaves the history table
unchanged. -/
theorem updatePrefsHistory (u : String) (db : UserDB) :
    (update_user_preferences_from_history u db).history = db.history := rfl

/-- Helper: after recomputing the preferences of a user, the preference
row of that user holds the locations of the first five rows of the stable
descending sort S of the user's history rows. S is pinned uniquely: it is
a permutation of the rows, pairwise descending, and every pairwise
descending run of the rows in store order survives as a sublist of S, so
rows with tied counts keep their store order and the choice at the
five-row boundary is determined; the chosen rows are also at least as
frequent as every remaining row of S. -/
theorem updatePrefsRanking (db : UserDB) (u : String) :
    ∃ S : List UserSearchHistoryRow,
      (S.Perm ((update_user_preferences_from_history u db).history.filter
        (fun r => r.user_id == u)))
      ∧ S.Pairwise countDescRel
      ∧ (∀ run : List UserSearchHistoryRow, run.Pairwise countDescRel →
          run.Sublist ((update_user_preferences_from_history u db).history.filter
            (fun r => r.user_id == u)) → run.Sublist S)
      ∧ (((update_user_preferences_from_history u db).preferences.find?
        (fun p => p.user_id == u)).map (fun p => p.top_searches)) =
          some ((S.take 5).map (fun r => r.location))
      ∧ (S.take 5).length =
          min 5 ((update_user_preferences_from_history u db).history.filter
            (fun r => r.user_id == u)).length
      ∧ (∀ a ∈ S.take 5, ∀ b ∈ S.drop 5, b.search_count ≤ a.search_count) := by
  refine ⟨List.insertionSort countDescRel
      (db.history.filter (fun r => r.user_id == u)), ?_, ?_, ?_, ?_, ?_, ?_⟩
  · rw [updatePrefsHistory]
    exact List.perm_insertionSort countDescRel _
  · exact List.sorted_insertionSort countDescRel _
  · intro run hp hs
    rw [updatePrefsHistory] at hs
    exact List.sublist_insertionSort hp hs
  · cases hp : db.preferences.find? (fun p => p.user_id == u) with
    | none =>
      simp only [update_user_preferences_from_history, hp]
      rw [findAppendNone _ _ _ hp]
      simp
    | some p0 =>
      simp only [update_user_preferences_from_history, hp]
      rw [findUpdateFirst (fun p => p.user_id == u)
        (fun p => ⟨p.user_id, List.map (fun r => r.location)
          (List.take 5 (List.insertionSort countDescRel
            (List.filter (fun r => r.user_id == u) db.history)))⟩)
        db.preferences (fun a ha => ha), hp]
      rfl
  · rw [updatePrefsHistory, List.length_take, List.length_insertionSort]
  · have hps : List.Pairwise countDescRel
        ((List.insertionSort countDescRel
          (db.history.filter (fun r => r.user_id == u))).take 5 ++
         (List.insertionSort countDescRel
          (db.history.filter (fun r => r.user_id == u))).drop 5) := by
      rw [List.take_append_drop]
      exact List.sorted_insertionSort countDescRel _
    exact (List.pairwise_append.mp hps).2.2

/-- C9: logging a search creates the (user, location) history row with
count 1 when it is absent and increments its count and refreshes its
timestamp when it is present; after every log the preference row of the
user holds the locations of the first five rows of the stable descending
sort of the user's history rows, the sort pinned uniquely by being a
permutation, pairwise descending, and preserving every descending run of
the store order as a sublist, which fixes the order of tied counts and
the choice at the five-row boundary; the chosen rows dominate all others;
and logging Paris three times and Rome once from an empty store yields
the preference list with Paris first, then Rome. -/
theorem log_search_increment_and_ranking (database : UserDB) (u loc : String)
    (now : Nat) :
    (database.history.find? (fun r => r.user_id == u && r.location == loc) = none →
      (log_user_search now database u loc).history =
        database.history ++ [⟨u, loc, 1, now⟩])
    ∧ (∀ pre r post, database.history = pre ++ r :: post →
        (∀ q ∈ pre, (q.user_id == u && q.location == loc) = false) →
        (r.user_id == u && r.location == loc) = true →
        (log_user_search now database u loc).history =
          pre ++ (⟨r.user_id, r.location, r.search_count + 1, now⟩ :
            UserSearchHistoryRow) :: post)
    ∧ (∃ S : List UserSearchHistoryRow,
        (S.Perm ((log_user_search now database u loc).history.filter
          (fun r => r.user_id == u)))
        ∧ S.Pairwise countDescRel
        ∧ (∀ run : List UserSearchHistoryRow, run.Pairwise countDescRel →
            run.Sublist ((log_user_search now database u loc).history.filter
              (fun r => r.user_id == u)) → run.Sublist S)
        ∧ (((log_user_search now database u loc).preferences.find?
          (fun p => p.user_id == u)).map (fun p => p.top_searches)) =
            some ((S.take 5).map (fun r => r.location))
        ∧ (S.take 5).length =
            min 5 ((log_user_search now database u loc).history.filter
              (fun r => r.user_id == u)).length
        ∧ (∀ a ∈ S.take 5, ∀ b ∈ S.drop 5, b.search_count ≤ a.search_count))
    ∧ ((log_user_search 4
        (log_user_search 3
          (log_user_search 2
            (log_user_search 1 ⟨[], []⟩ "eve" "Paris") "eve" "Paris") "eve" "Paris")
        "eve" "Rome").preferences = [⟨"eve", ["Paris", "Rome"]⟩]) := by
  refine ⟨?_, ?_, ?_, by decide⟩
  · intro hfind
    have hlog : log_user_search now database u loc =
        update_user_preferences_from_history u
          ⟨database.history ++ [⟨u, loc, 1, now⟩], database.preferences⟩ := by
      simp only [log_user_search, hfind]
    rw [hlog, updatePrefsHistory]
  · intro pre r post hsplit hpre hr
    have hfind : database.history.find?
        (fun q => q.user_id == u && q.location == loc) = some r := by
      rw [hsplit, findAppendNone _ _ _ (List.find?_eq_none.mpr
        (fun q hq => by simp [hpre q hq]))]
      exact List.find?_cons_of_pos _ hr
    have hlog : log_user_search now database u loc =
        update_user_preferences_from_history u
          ⟨updateFirst (fun q => q.user_id == u && q.location == loc)
            (fun q => ⟨q.user_id, q.location, q.search_count + 1, now⟩)
            database.history, database.preferences⟩ := by
      simp only [log_user_search, hfind]
    rw [hlog, updatePrefsHistory, hsplit]
    exact updateFirstAppend _ _ pre post r hpre hr
  · cases hfind : database.history.find?
        (fun r => r.user_id == u && r.location == loc) with
    | none =>
      have hlog : log_user_search now database u loc =
          update_user_preferences_from_history u
            ⟨database.history ++ [⟨u, loc, 1, now⟩], database.preferences⟩ := by
        simp only [log_user_search, hfind]
      rw [hlog]
      exact updatePrefsRanking _ u
    | some r0 =>
      have hlog : log_user_search now database u loc =
          update_user_preferences_from_history u
            ⟨updateFirst (fun q => q.user_id == u && q.location == loc)
              (fun q => ⟨q.user_id, q.location, q.search_count + 1, now⟩)
              database.history, database.preferences⟩ := by
        simp only [log_user_search, hfind]
      rw [hlog]
      exact updatePrefsRanking _ u

/-- Witness for C9: logging a search for a fresh pair creates the row with
count 1, through the theorem at a concrete input. -/
theorem log_search_increment_and_ranking_witness :
    (log_user_search 1 ⟨[], []⟩ "eve" "Paris").history = [⟨"eve", "Paris", 1, 1⟩] := by
  have h := (log_search_increment_and_ranking ⟨[], []⟩ "eve" "Paris" 1).1 (by decide)
  simpa using h
